import Mathlib

/-!
Verification development for the `atlas-search-cli` repository.

The repository is a Python CLI that resolves configuration layers
(CLI flags over a named profile over built-in defaults) and builds
MongoDB aggregation pipelines (`$search`, `$vectorSearch`, `$limit`,
`$project`).  We shallowly embed the configuration-resolution and
pipeline-construction logic of `src/atlas_search_cli/main.py` and the
raw-template flow of `src/main.py` as executable Lean definitions and
prove the specification's claims about them.

External collaborators (the MongoDB driver, the Voyage embedding client,
the filesystem, `os.environ`) are modelled at the boundary: network
calls become entries of an event trace, file contents and environment
variables become explicit parameters.
-/

/-- JSON values, mirroring the dynamic dictionaries/lists/strings the
Python code builds.  Objects keep insertion order, as Python dicts do.
Numeric literals are restricted to integers; the repository never puts a
non-integer number into a pipeline it builds. -/
inductive Json where
  | null : Json
  | bool (b : Bool) : Json
  | num (n : Int) : Json
  | str (s : String) : Json
  | arr (xs : List Json) : Json
  | obj (kvs : List (String × Json)) : Json

/-- Lookup of a key in a JSON object (first occurrence), `none` on
non-objects or missing keys. -/
def Json.objLookup : Json → String → Option Json
  | .obj kvs, k => (kvs.find? (fun kv => kv.1 = k)).map (·.2)
  | _, _ => none

/-- Whether a JSON value is an object (a pipeline stage shape). -/
def Json.isObj : Json → Bool
  | .obj _ => true
  | _ => false

/-- Python truthiness of an optional string: `None` and `""` are falsy
(`args.x if args.x else ...` in the source). -/
def strTruthy : Option String → Bool
  | none => false
  | some s => !s.isEmpty

/-- A `field` value as stored in a profile or supplied on the CLI:
either a single path string or a list of path strings (the `config set`
command persists the repeatable `--field` flag as a JSON list). -/
inductive FieldVal where
  | str (s : String) : FieldVal
  | list (xs : List String) : FieldVal

/-- Python truthiness of an optional `field` value: `None`, `""` and
`[]` are falsy (`if not field:` in the source). -/
def fieldTruthy : Option FieldVal → Bool
  | none => false
  | some (.str s) => !s.isEmpty
  | some (.list xs) => !xs.isEmpty

/-- Rendering a `field` value into the JSON placed at `text.path`. -/
def fieldValToJson : FieldVal → Json
  | .str s => .str s
  | .list xs => .arr (xs.map Json.str)

/-- A saved configuration profile: the flat JSON document that
`get_config` loads (one file per profile name).  Each field is `none`
when the key is absent from the document. -/
structure Config where
  connectionString : Option String := none
  db : Option String := none
  coll : Option String := none
  index : Option String := none
  field : Option FieldVal := none
  projectField : Option (List String) := none
  voyageAPIKey : Option String := none
  voyageModel : Option String := none

/-- Arguments of `config set <name> [flags]` after argparse: optional
strings for single-valued flags; the repeatable `--field` and
`--projectField` flags collect into a list, `[]` when never supplied
(argparse yields `None` then, and the code only tests truthiness, under
which `None` and `[]` agree). -/
structure ConfigSetArgs where
  name : String := "default"
  connectionString : Option String := none
  db : Option String := none
  coll : Option String := none
  index : Option String := none
  field : List String := []
  projectField : List String := []
  voyageAPIKey : Option String := none
  voyageModel : Option String := none

/-- `handle_config_set` (src/atlas_search_cli/main.py lines 27-46): load
the existing profile, overwrite exactly the keys whose flag was passed
with a truthy value, and save the merged document back. -/
def handle_config_set (old : Config) (a : ConfigSetArgs) : Config :=
  { connectionString :=
      if strTruthy a.connectionString then a.connectionString else old.connectionString
    db := if strTruthy a.db then a.db else old.db
    coll := if strTruthy a.coll then a.coll else old.coll
    index := if strTruthy a.index then a.index else old.index
    field := if !a.field.isEmpty then some (.list a.field) else old.field
    projectField := if !a.projectField.isEmpty then some a.projectField else old.projectField
    voyageAPIKey := if strTruthy a.voyageAPIKey then a.voyageAPIKey else old.voyageAPIKey
    voyageModel := if strTruthy a.voyageModel then a.voyageModel else old.voyageModel }

/-- CLI arguments of `lexical <query> [flags]` before argparse fills
defaults: `limit` is `none` when `--limit` was not supplied (argparse
default `10`, line 213); the repeatable flags are `[]` when absent. -/
structure LexicalCli where
  query : String := ""
  field : List String := []
  projectField : List String := []
  index : Option String := none
  limit : Option Int := none
  connectionString : Option String := none
  db : Option String := none
  coll : Option String := none
  verbose : Bool := false

/-- CLI arguments of `vector <query> [flags]` before argparse fills
defaults.  Note `--field` is a plain single-valued flag here (line 224,
no `action=append`), unlike `lexical` and `config set`; `--limit`
defaults to `10`, `--numCandidates` to `100`, `--voyageModel` to
`"voyage-3.5"` (lines 227-230). -/
structure VectorCli where
  query : String := ""
  field : Option String := none
  projectField : List String := []
  index : Option String := none
  numCandidates : Option Int := none
  limit : Option Int := none
  embedWithVoyage : Bool := false
  voyageModel : Option String := none
  voyageAPIKey : Option String := none
  connectionString : Option String := none
  db : Option String := none
  coll : Option String := none
  verbose : Bool := false

/-- One of the two outbound network calls the program can make.  The
embedding call records the API key the client was constructed with and
the model name passed to `vo.embed` (line 130-131). -/
inductive Event where
  | voyageEmbed (apiKey model : String) : Event
  | mongoAggregate : Event

/-- Observable outcome of one search invocation: the exit code when the
handler calls `sys.exit`, the messages printed to stderr in order, the
pipeline and connection triple handed to `execute_pipeline` (when
reached), and the trace of network calls. -/
structure RunResult where
  exitCode : Option Nat := none
  stderr : List String := []
  pipeline : Option (List Json) := none
  conn : Option (String × String × String) := none
  events : List Event := []

/-- Error message for missing connection details (lines 68 and 108). -/
def connErrMsg : String :=
  "Error: Connection details not configured. Please run \x27atlas-search config set <name>\x27 first."

/-- Error message for a missing vector-search field (line 118). -/
def fieldErrMsg : String := "Error: --field is required for vector search."

/-- Warning for multiple fields passed to vector search (line 122). -/
def multiFieldWarnMsg : String :=
  "Warning: Multiple fields specified for vector search. Only the first field will be used."

/-- Error message for a missing Voyage API key (line 128). -/
def voyageKeyErrMsg : String :=
  "Error: Voyage AI API key is required. Set the VOYAGE_API_KEY environment variable or use the --voyageAPIKey flag."

/-- Resolution of a single-valued string setting: the CLI flag when
truthy, else the profile value (`args.x if args.x else config.get(x)`). -/
def resolveStr (cli : Option String) (prof : Option String) : Option String :=
  if strTruthy cli then cli else prof

/-- Resolution with a `get` default: the CLI flag when truthy, else the
profile value when the key is present, else the documented default
(`args.x if args.x else config.get(x, d)`). -/
def resolveStrD (cli : Option String) (prof : Option String) (d : String) : String :=
  if strTruthy cli then cli.getD "" else prof.getD d

/-- The combined requiredness test of lines 67 and 107
(`if not connection_string or not db_name or not coll_name`). -/
def requiredTruthy (cs dbName collName : Option String) : Bool :=
  strTruthy cs && strTruthy dbName && strTruthy collName

/-- Lexical `text.path` resolution (line 71): the CLI list when
non-empty, else the profile value when present, else the wildcard-all
object. -/
def resolveLexicalPath (cli : List String) (prof : Option FieldVal) : Json :=
  if !cli.isEmpty then .arr (cli.map Json.str)
  else
    match prof with
    | some fv => fieldValToJson fv
    | none => .obj [("wildcard", .str "*")]

/-- Vector field resolution (line 112): the single-valued CLI flag when
truthy (a string), else the profile value (a list when saved by
`config set`). -/
def resolveVectorField (cli : Option String) (prof : Option FieldVal) : Option FieldVal :=
  if strTruthy cli then some (.str (cli.getD "")) else prof

/-- The path a resolved vector field contributes (lines 120-123): a
string is used as is; a list contributes its first entry. -/
def optFieldPath : Option FieldVal → String
  | some (.str s) => s
  | some (.list xs) => xs.headD ""
  | none => ""

/-- The warning a resolved vector field triggers (lines 121-122): only a
list with more than one entry warns, with a fixed message. -/
def optFieldWarnings : Option FieldVal → List String
  | some (.list xs) => if xs.length > 1 then [multiFieldWarnMsg] else []
  | _ => []

/-- Voyage API key resolution (line 126): the CLI flag when truthy, else
the profile key when present, else the `VOYAGE_API_KEY` environment
variable (`config.get` evaluates the environment lookup as default). -/
def resolveVoyageKey (cli prof env : Option String) : Option String :=
  if strTruthy cli then cli
  else
    match prof with
    | some v => some v
    | none => env

/-- Voyage model resolution (line 131): argparse has already replaced an
absent `--voyageModel` with `"voyage-3.5"` (line 230), so the profile
value is reachable only when the CLI explicitly passes an empty
string. -/
def resolveVoyageModel (cli prof : Option String) : String :=
  if !(cli.getD "voyage-3.5").isEmpty then cli.getD "voyage-3.5" else prof.getD "voyage-3.5"

/-- numCandidates in the emitted stage (line 144): the argparse value
(default `100`, line 227) when non-zero, else ten times the limit. -/
def resolveNumCandidates (cli : Option Int) (limit : Int) : Int :=
  if cli.getD 100 ≠ 0 then cli.getD 100 else 10 * limit

/-- Resolution of project fields (lines 73-75 and 113-115): profile list
(defaulting to `[]`) concatenated with the CLI list, then deduplicated
via `list(set(...))`.  Python's `set` iteration order is unspecified;
`dedup` is one faithful enumeration of the resulting set. -/
def resolvedProjectFields (configFields cliFields : List String) : List String :=
  (configFields ++ cliFields).dedup

/-- The `$search` stage built by `handle_lexical_search` (lines 77-86),
with Python dict insertion order preserved. -/
def searchStage (index query : String) (path : Json) : Json :=
  .obj [("$search", .obj [("index", .str index),
                          ("text", .obj [("query", .str query), ("path", path)])])]

/-- The `$limit` stage (lines 87-89). -/
def limitStage (n : Int) : Json := .obj [("$limit", .num n)]

/-- The `$project` stage (lines 92-96 and 150-154): each project field
maps to the inclusion value `1`. -/
def projectStage (fields : List String) : Json :=
  .obj [("$project", .obj (fields.map (fun f => (f, Json.num 1))))]

/-- The `$vectorSearch` stage (lines 138-148), with Python dict
insertion order preserved; `queryEntry` is `("queryVector", vector)`
when the query was embedded and `("query", raw text)` otherwise. -/
def vectorSearchStage (index : String) (queryEntry : String × Json) (path : String)
    (numCandidates limit : Int) : Json :=
  .obj [("$vectorSearch", .obj [("index", .str index), queryEntry, ("path", .str path),
                                ("numCandidates", .num numCandidates), ("limit", .num limit)])]

/-- `handle_lexical_search` (lines 60-98) with the loaded profile passed
in (`get_config` file I/O is external): resolve the connection triple,
fail before any network call if any is falsy, otherwise build
`[$search, $limit]` plus an optional trailing `$project` and hand it to
`execute_pipeline` (modelled as the `mongoAggregate` event). -/
def handle_lexical_search (cfg : Config) (a : LexicalCli) : RunResult :=
  if !requiredTruthy (resolveStr a.connectionString cfg.connectionString)
      (resolveStr a.db cfg.db) (resolveStr a.coll cfg.coll) then
    { exitCode := some 1, stderr := [connErrMsg] }
  else
    { exitCode := none, stderr := [],
      pipeline := some
        ([searchStage (resolveStrD a.index cfg.index "default") a.query
            (resolveLexicalPath a.field cfg.field),
          limitStage (a.limit.getD 10)]
          ++ (if !(resolvedProjectFields (cfg.projectField.getD []) a.projectField).isEmpty
              then [projectStage (resolvedProjectFields (cfg.projectField.getD []) a.projectField)]
              else [])),
      conn := some ((resolveStr a.connectionString cfg.connectionString).getD "",
                    (resolveStr a.db cfg.db).getD "",
                    (resolveStr a.coll cfg.coll).getD ""),
      events := [Event.mongoAggregate] }

/-- `handle_vector_search` (lines 100-156) with the loaded profile, the
`VOYAGE_API_KEY` environment variable, and the embedding the Voyage
client would return passed in explicitly.  Mirrors the source order:
connection check, index/field/projectField resolution, field
normalisation (a profile-stored list uses its first entry, warning when
more than one), Voyage key resolution and embedding when requested,
then the `$vectorSearch` pipeline with optional `$project`. -/
def handle_vector_search (cfg : Config) (a : VectorCli) (envVoyageKey : Option String)
    (embedding : Json) : RunResult :=
  if !requiredTruthy (resolveStr a.connectionString cfg.connectionString)
      (resolveStr a.db cfg.db) (resolveStr a.coll cfg.coll) then
    { exitCode := some 1, stderr := [connErrMsg] }
  else if !fieldTruthy (resolveVectorField a.field cfg.field) then
    { exitCode := some 1, stderr := [fieldErrMsg] }
  else if a.embedWithVoyage then
    if !strTruthy (resolveVoyageKey a.voyageAPIKey cfg.voyageAPIKey envVoyageKey) then
      { exitCode := some 1,
        stderr := optFieldWarnings (resolveVectorField a.field cfg.field) ++ [voyageKeyErrMsg] }
    else
      { exitCode := none,
        stderr := optFieldWarnings (resolveVectorField a.field cfg.field),
        pipeline := some
          ([vectorSearchStage (resolveStrD a.index cfg.index "vector_index")
              ("queryVector", embedding)
              (optFieldPath (resolveVectorField a.field cfg.field))
              (resolveNumCandidates a.numCandidates (a.limit.getD 10)) (a.limit.getD 10)]
            ++ (if !(resolvedProjectFields (cfg.projectField.getD []) a.projectField).isEmpty
                then [projectStage (resolvedProjectFields (cfg.projectField.getD []) a.projectField)]
                else [])),
        conn := some ((resolveStr a.connectionString cfg.connectionString).getD "",
                      (resolveStr a.db cfg.db).getD "",
                      (resolveStr a.coll cfg.coll).getD ""),
        events := [Event.voyageEmbed
                     ((resolveVoyageKey a.voyageAPIKey cfg.voyageAPIKey envVoyageKey).getD "")
                     (resolveVoyageModel a.voyageModel cfg.voyageModel),
                   Event.mongoAggregate] }
  else
    { exitCode := none,
      stderr := optFieldWarnings (resolveVectorField a.field cfg.field),
      pipeline := some
        ([vectorSearchStage (resolveStrD a.index cfg.index "vector_index")
            ("query", .str a.query)
            (optFieldPath (resolveVectorField a.field cfg.field))
            (resolveNumCandidates a.numCandidates (a.limit.getD 10)) (a.limit.getD 10)]
          ++ (if !(resolvedProjectFields (cfg.projectField.getD []) a.projectField).isEmpty
              then [projectStage (resolvedProjectFields (cfg.projectField.getD []) a.projectField)]
              else [])),
      conn := some ((resolveStr a.connectionString cfg.connectionString).getD "",
                    (resolveStr a.db cfg.db).getD "",
                    (resolveStr a.coll cfg.coll).getD ""),
      events := [Event.mongoAggregate] }

/-- Modelled from the spec: the external JSON parsing library (Python's
`json.loads`), an out-of-scope collaborator of `src/main.py`.  Standard
JSON grammar over characters, restricted to integer numerals (the
repository's template flow never depends on non-integer numbers).
Whitespace characters recognised between tokens. -/
def jsonWs (c : Char) : Bool := c = ' ' || c = '\n' || c = '\t' || c = '\r'

/-- Skip leading JSON whitespace. -/
def skipWs : List Char → List Char
  | [] => []
  | c :: cs => if jsonWs c then skipWs cs else c :: cs

/-- The opening-brace character, by code point. -/
def lbrace : Char := Char.ofNat 123

/-- The closing-brace character, by code point. -/
def rbrace : Char := Char.ofNat 125

/-- Value of one hexadecimal digit. -/
def hexVal (c : Char) : Option Nat :=
  if c.isDigit then some (c.toNat - 48)
  else if 'a' ≤ c && c ≤ 'f' then some (c.toNat - 87)
  else if 'A' ≤ c && c ≤ 'F' then some (c.toNat - 55)
  else none

/-- Body of a JSON string after the opening quote: characters up to the
closing quote, with the standard escapes. -/
def parseStringBody : Nat → List Char → List Char → Option (String × List Char)
  | 0, _, _ => none
  | _, [], _ => none
  | f + 1, c :: cs, acc =>
    if c = '\"' then some (String.mk acc.reverse, cs)
    else if c = '\\' then
      match cs with
      | [] => none
      | e :: cs2 =>
        if e = '\"' then parseStringBody f cs2 ('\"' :: acc)
        else if e = '\\' then parseStringBody f cs2 ('\\' :: acc)
        else if e = '/' then parseStringBody f cs2 ('/' :: acc)
        else if e = 'n' then parseStringBody f cs2 ('\n' :: acc)
        else if e = 't' then parseStringBody f cs2 ('\t' :: acc)
        else if e = 'r' then parseStringBody f cs2 ('\r' :: acc)
        else if e = 'b' then parseStringBody f cs2 (Char.ofNat 8 :: acc)
        else if e = 'f' then parseStringBody f cs2 (Char.ofNat 12 :: acc)
        else if e = 'u' then
          match cs2 with
          | h1 :: h2 :: h3 :: h4 :: cs3 =>
            match hexVal h1, hexVal h2, hexVal h3, hexVal h4 with
            | some x1, some x2, some x3, some x4 =>
              parseStringBody f cs3 (Char.ofNat (x1 * 4096 + x2 * 256 + x3 * 16 + x4) :: acc)
            | _, _, _, _ => none
          | _ => none
        else none
    else parseStringBody f cs (c :: acc)

/-- Run of decimal digits, accumulating a natural number. -/
def parseDigitsAux : List Char → Nat → Nat × List Char
  | [], acc => (acc, [])
  | c :: cs, acc =>
    if c.isDigit then parseDigitsAux cs (acc * 10 + (c.toNat - 48)) else (acc, c :: cs)

/-- One or more decimal digits. -/
def parseNatNum (cs : List Char) : Option (Nat × List Char) :=
  match cs with
  | c :: _ => if c.isDigit then some (parseDigitsAux cs 0) else none
  | [] => none

/-- A JSON integer numeral, optionally negative. -/
def parseNum (cs : List Char) : Option (Json × List Char) :=
  match cs with
  | '-' :: cs2 => (parseNatNum cs2).map (fun p => (Json.num (-(p.1 : Int)), p.2))
  | _ => (parseNatNum cs).map (fun p => (Json.num (p.1 : Int), p.2))

mutual

/-- One JSON value, fuel-bounded recursive descent. -/
def parseVal : Nat → List Char → Option (Json × List Char)
  | 0, _ => none
  | f + 1, cs =>
    match skipWs cs with
    | [] => none
    | c :: rest =>
      if c = '\"' then (parseStringBody f rest []).map (fun p => (Json.str p.1, p.2))
      else if c = '[' then
        match skipWs rest with
        | ']' :: r2 => some (.arr [], r2)
        | r2 => (parseElems f r2).map (fun p => (Json.arr p.1, p.2))
      else if c = lbrace then
        match skipWs rest with
        | [] => none
        | d :: r2 =>
          if d = rbrace then some (.obj [], r2)
          else (parseMembers f (d :: r2)).map (fun p => (Json.obj p.1, p.2))
      else if c = 't' then
        match rest with
        | 'r' :: 'u' :: 'e' :: r => some (.bool true, r)
        | _ => none
      else if c = 'f' then
        match rest with
        | 'a' :: 'l' :: 's' :: 'e' :: r => some (.bool false, r)
        | _ => none
      else if c = 'n' then
        match rest with
        | 'u' :: 'l' :: 'l' :: r => some (.null, r)
        | _ => none
      else parseNum (c :: rest)

/-- One or more comma-separated array elements then `]`. -/
def parseElems : Nat → List Char → Option (List Json × List Char)
  | 0, _ => none
  | f + 1, cs =>
    match parseVal f cs with
    | none => none
    | some (v, rest) =>
      match skipWs rest with
      | ',' :: r2 => (parseElems f r2).map (fun p => (v :: p.1, p.2))
      | ']' :: r2 => some ([v], r2)
      | _ => none

/-- One or more comma-separated `"key": value` members then the closing
brace. -/
def parseMembers : Nat → List Char → Option (List (String × Json) × List Char)
  | 0, _ => none
  | f + 1, cs =>
    match skipWs cs with
    | [] => none
    | c :: rest =>
      if c = '\"' then
        match parseStringBody f rest [] with
        | none => none
        | some (k, r1) =>
          match skipWs r1 with
          | ':' :: r2 =>
            match parseVal f r2 with
            | none => none
            | some (v, r3) =>
              match skipWs r3 with
              | [] => none
              | d :: r4 =>
                if d = ',' then (parseMembers f r4).map (fun p => ((k, v) :: p.1, p.2))
                else if d = rbrace then some ([(k, v)], r4)
                else none
          | _ => none
      else none

end

/-- Parse a complete JSON document: one value with only whitespace
around it, as `json.loads` requires. -/
def Json.parse (s : String) : Option Json :=
  let cs := s.toList
  match parseVal (3 * cs.length + 3) cs with
  | some (v, rest) => if (skipWs rest).isEmpty then some v else none
  | none => none

/-- Whether `pat` is an initial segment of `s` (character lists). -/
def startsWithPat : List Char → List Char → Bool
  | [], _ => true
  | _ :: _, [] => false
  | p :: ps, c :: cs => p = c && startsWithPat ps cs

/-- Python's substring operator `pat in s` over character lists: `pat`
occurs contiguously somewhere in `s`. -/
def containsPat (pat : List Char) : List Char → Bool
  | [] => pat.isEmpty
  | c :: cs => startsWithPat pat (c :: cs) || containsPat pat cs

/-- Python's `str.replace` over character lists: scan left to right,
replacing every non-overlapping occurrence of `pat` (assumed non-empty)
by `repl`; fuel-bounded by the length of the scanned list. -/
def replacePat (pat repl : List Char) : Nat → List Char → List Char
  | 0, s => s
  | _, [] => []
  | f + 1, c :: cs =>
    if startsWithPat pat (c :: cs) then
      repl ++ replacePat pat repl f ((c :: cs).drop pat.length)
    else c :: replacePat pat repl f cs

/-- Python's substring operator at the `String` level. -/
def containsSub (s pat : String) : Bool := containsPat pat.toList s.toList

/-- Python's `str.replace` at the `String` level. -/
def replaceSub (s pat repl : String) : String :=
  String.mk (replacePat pat.toList repl.toList s.toList.length s.toList)

/-- The literal placeholder token of the raw-template flow. -/
def searchQueryPlaceholder : String := "%%SEARCH_QUERY%%"

/-- The three fatal input errors of the raw-template flow, in the order
the source checks them. -/
inductive TemplateError where
  | missingPlaceholder : TemplateError
  | invalidJson : TemplateError
  | notAnArray : TemplateError

/-- The raw-template pipeline construction of `src/main.py` (lines
35-54, inside `main`): reject a file without the literal placeholder
before any JSON parsing, otherwise textually substitute the raw query
for every occurrence of the placeholder, parse the result as JSON, and
reject any parsed value that is not a JSON array.  The elements of the
array are not themselves validated. -/
def templateBuild (content query : String) : Except TemplateError (List Json) :=
  if !containsSub content searchQueryPlaceholder then .error .missingPlaceholder
  else
    match Json.parse (replaceSub content searchQueryPlaceholder query) with
    | none => .error .invalidJson
    | some (.arr xs) => .ok xs
    | some _ => .error .notAnArray

/-- CLI arguments of the single-command revision in `src/main.py`. -/
structure RawCli where
  query : String := ""
  connectionString : Option String := none
  db : Option String := none
  coll : Option String := none
  searchAggFile : Option String := none
  verbose : Bool := false

/-- Stderr message for a template file missing the placeholder
(src/main.py line 41). -/
def placeholderErrMsg (path : String) : String :=
  "Error: The aggregation file \x27" ++ path ++
    "\x27 must contain the \x27%%SEARCH_QUERY%%\x27 placeholder."

/-- Stderr message for a template that is not a JSON array (line 46). -/
def notArrayErrMsg (path : String) : String :=
  "Error: The aggregation file \x27" ++ path ++
    "\x27 must contain a valid JSON array (pipeline)."

/-- Stderr message for a missing template file (line 50). -/
def fileNotFoundErrMsg (path : String) : String :=
  "Error: Aggregation file not found at \x27" ++ path ++ "\x27"

/-- Stderr message for malformed JSON in the template (line 53). -/
def invalidJsonErrMsg (path : String) : String :=
  "Error: Invalid JSON in aggregation file \x27" ++ path ++ "\x27"

/-- The default lexical pipeline of `src/main.py` (lines 57-69). -/
def rawDefaultPipeline (query : String) : List Json :=
  [.obj [("$search", .obj [("index", .str "default"),
                           ("text", .obj [("query", .str query),
                                          ("path", .obj [("wildcard", .str "*")])])])]]

/-- The `main` flow of `src/main.py` (lines 16-76), with the template
file's content passed in (`none` models `FileNotFoundError`).  Required
flags are checked one by one before the client is constructed; the
`MongoClient` constructor itself performs no network I/O (the driver is
lazy), so every error path here has an empty event trace. -/
def rawMain (a : RawCli) (fileContent : Option String) : RunResult :=
  if !strTruthy a.connectionString then
    { exitCode := some 1, stderr := ["Error: Connection string is required."] }
  else if !strTruthy a.db then
    { exitCode := some 1, stderr := ["Error: Database name is required."] }
  else if !strTruthy a.coll then
    { exitCode := some 1, stderr := ["Error: Collection name is required."] }
  else
    let conn := some (a.connectionString.getD "", a.db.getD "", a.coll.getD "")
    if strTruthy a.searchAggFile then
      let path := a.searchAggFile.getD ""
      match fileContent with
      | none => { exitCode := some 1, stderr := [fileNotFoundErrMsg path] }
      | some content =>
        match templateBuild content a.query with
        | .error .missingPlaceholder =>
            { exitCode := some 1, stderr := [placeholderErrMsg path] }
        | .error .invalidJson =>
            { exitCode := some 1, stderr := [invalidJsonErrMsg path] }
        | .error .notAnArray =>
            { exitCode := some 1, stderr := [notArrayErrMsg path] }
        | .ok pipeline =>
            { exitCode := none, stderr := [], pipeline := some pipeline,
              conn := conn, events := [Event.mongoAggregate] }
    else
      { exitCode := none, stderr := [], pipeline := some (rawDefaultPipeline a.query),
        conn := conn, events := [Event.mongoAggregate] }

/-- How argparse stores a flag: a single value, a boolean switch, or a
repeatable flag collecting a list (`action=append`). -/
inductive ArgAction where
  | store : ArgAction
  | storeTrue : ArgAction
  | append : ArgAction
deriving DecidableEq

/-- One registered argparse flag: its name and its action. -/
structure ArgFlag where
  name : String
  action : ArgAction

/-- Flags registered on the `config set` subparser (lines 191-199). -/
def configSetFlags : List ArgFlag :=
  [⟨"--connectionString", .store⟩, ⟨"--db", .store⟩, ⟨"--coll", .store⟩,
   ⟨"--index", .store⟩, ⟨"--field", .append⟩, ⟨"--projectField", .append⟩,
   ⟨"--voyageAPIKey", .store⟩, ⟨"--voyageModel", .store⟩]

/-- Flags registered on the `lexical` subparser (lines 208-217). -/
def lexicalFlags : List ArgFlag :=
  [⟨"--config", .store⟩, ⟨"--field", .append⟩, ⟨"--projectField", .append⟩,
   ⟨"--index", .store⟩, ⟨"--limit", .store⟩, ⟨"--connectionString", .store⟩,
   ⟨"--db", .store⟩, ⟨"--coll", .store⟩, ⟨"--verbose", .storeTrue⟩]

/-- Flags registered on the `vector` subparser (lines 222-235): note
`--field` is declared at line 224 with no `action=append`. -/
def vectorFlags : List ArgFlag :=
  [⟨"--config", .store⟩, ⟨"--field", .store⟩, ⟨"--projectField", .append⟩,
   ⟨"--index", .store⟩, ⟨"--numCandidates", .store⟩, ⟨"--limit", .store⟩,
   ⟨"--embedWithVoyage", .storeTrue⟩, ⟨"--voyageModel", .store⟩,
   ⟨"--voyageAPIKey", .store⟩, ⟨"--connectionString", .store⟩,
   ⟨"--db", .store⟩, ⟨"--coll", .store⟩, ⟨"--verbose", .storeTrue⟩]

/-- Action of a named flag in a subparser's flag list. -/
def flagAction (flags : List ArgFlag) (n : String) : Option ArgAction :=
  (flags.find? (fun f => f.name = n)).map (·.action)

/-- View of a profile as the flat key-value JSON document that is
persisted on disk, keyed by setting name. -/
def Config.lookupKey (c : Config) (k : String) : Option Json :=
  if k = "connectionString" then c.connectionString.map .str
  else if k = "db" then c.db.map .str
  else if k = "coll" then c.coll.map .str
  else if k = "index" then c.index.map .str
  else if k = "field" then c.field.map fieldValToJson
  else if k = "projectField" then c.projectField.map (fun xs => .arr (xs.map .str))
  else if k = "voyageAPIKey" then c.voyageAPIKey.map .str
  else if k = "voyageModel" then c.voyageModel.map .str
  else none

/-- Whether a `config set` invocation passed the flag for setting `k`
with a truthy value (the condition under which line 29-44 writes it). -/
def ConfigSetArgs.passedKey (a : ConfigSetArgs) (k : String) : Bool :=
  if k = "connectionString" then strTruthy a.connectionString
  else if k = "db" then strTruthy a.db
  else if k = "coll" then strTruthy a.coll
  else if k = "index" then strTruthy a.index
  else if k = "field" then !a.field.isEmpty
  else if k = "projectField" then !a.projectField.isEmpty
  else if k = "voyageAPIKey" then strTruthy a.voyageAPIKey
  else if k = "voyageModel" then strTruthy a.voyageModel
  else false

/-- The JSON value a `config set` invocation would store for setting
`k`, as written by lines 29-44. -/
def ConfigSetArgs.cliValue (a : ConfigSetArgs) (k : String) : Option Json :=
  if k = "connectionString" then a.connectionString.map .str
  else if k = "db" then a.db.map .str
  else if k = "coll" then a.coll.map .str
  else if k = "index" then a.index.map .str
  else if k = "field" then some (.arr (a.field.map .str))
  else if k = "projectField" then some (.arr (a.projectField.map .str))
  else if k = "voyageAPIKey" then a.voyageAPIKey.map .str
  else if k = "voyageModel" then a.voyageModel.map .str
  else none

/-- The eight setting names `config set` can write. -/
def settableKeys : List String :=
  ["connectionString", "db", "coll", "index", "field", "projectField",
   "voyageAPIKey", "voyageModel"]

theorem projectStage_member_one (fields : List String) (f : String) (h : f ∈ fields) :
    Option.bind ((projectStage fields).objLookup "$project") (fun o => o.objLookup f) =
      some (.num 1) := by
  simp only [projectStage, Json.objLookup, Option.bind]
  induction fields with
  | nil => cases h
  | cons x xs ih =>
    rcases List.mem_cons.mp h with hx | hx
    · subst hx
      simp [Json.objLookup, List.find?]
    · by_cases hxf : x = f
      · subst hxf
        simp [Json.objLookup, List.find?]
      · simpa [Json.objLookup, List.find?, hxf] using ih hx

/-- C3: project-field resolution is a set union with duplicates
collapsed, and the `$project` stage maps each member to inclusion 1. -/
theorem c3_projectField_set_union :
    (∀ (configFields cliFields : List String) (f : String),
       f ∈ resolvedProjectFields configFields cliFields ↔ f ∈ configFields ∨ f ∈ cliFields)
    ∧ (∀ (configFields cliFields : List String),
       (resolvedProjectFields configFields cliFields).Nodup)
    ∧ (resolvedProjectFields ["a", "b"] ["b", "c"]).toFinset = ({"a", "b", "c"} : Finset String)
    ∧ (∀ (fields : List String) (f : String), f ∈ fields →
       Option.bind ((projectStage fields).objLookup "$project") (fun o => o.objLookup f) =
         some (.num 1)) := by
  refine ⟨?_, ?_, ?_, ?_⟩
  · intro configFields cliFields f
    simp [resolvedProjectFields, List.mem_dedup]
  · intro configFields cliFields
    exact List.nodup_dedup _
  · decide
  · exact projectStage_member_one

theorem c3_witness :
    Option.bind ((projectStage ["plot", "title"]).objLookup "$project")
      (fun o => o.objLookup "title") = some (.num 1) :=
  c3_projectField_set_union.2.2.2 ["plot", "title"] "title" (by decide)

/-- C4: config set is a partial update. -/
theorem c4_config_set_preserves_unpassed :
    ∀ (old : Config) (a : ConfigSetArgs) (k : String),
      (a.passedKey k = false →
        (handle_config_set old a).lookupKey k = old.lookupKey k)
      ∧ (a.passedKey k = true →
        (handle_config_set old a).lookupKey k = a.cliValue k) := by
  intro old a k
  by_cases h1 : k = "connectionString"
  · subst h1
    constructor <;> intro h <;>
      simp_all [ConfigSetArgs.passedKey, Config.lookupKey, ConfigSetArgs.cliValue,
        handle_config_set]
  by_cases h2 : k = "db"
  · subst h2
    constructor <;> intro h <;>
      simp_all [ConfigSetArgs.passedKey, Config.lookupKey, ConfigSetArgs.cliValue,
        handle_config_set]
  by_cases h3 : k = "coll"
  · subst h3
    constructor <;> intro h <;>
      simp_all [ConfigSetArgs.passedKey, Config.lookupKey, ConfigSetArgs.cliValue,
        handle_config_set]
  by_cases h4 : k = "index"
  · subst h4
    constructor <;> intro h <;>
      simp_all [ConfigSetArgs.passedKey, Config.lookupKey, ConfigSetArgs.cliValue,
        handle_config_set]
  by_cases h5 : k = "field"
  · subst h5
    constructor <;> intro h <;>
      simp_all [ConfigSetArgs.passedKey, Config.lookupKey, ConfigSetArgs.cliValue,
        handle_config_set, fieldValToJson]
  by_cases h6 : k = "projectField"
  · subst h6
    constructor <;> intro h <;>
      simp_all [ConfigSetArgs.passedKey, Config.lookupKey, ConfigSetArgs.cliValue,
        handle_config_set]
  by_cases h7 : k = "voyageAPIKey"
  · subst h7
    constructor <;> intro h <;>
      simp_all [ConfigSetArgs.passedKey, Config.lookupKey, ConfigSetArgs.cliValue,
        handle_config_set]
  by_cases h8 : k = "voyageModel"
  · subst h8
    constructor <;> intro h <;>
      simp_all [ConfigSetArgs.passedKey, Config.lookupKey, ConfigSetArgs.cliValue,
        handle_config_set]
  constructor <;> intro h <;>
    simp_all [ConfigSetArgs.passedKey, Config.lookupKey, ConfigSetArgs.cliValue,
      handle_config_set]

def c4OldProfile : Config := { db := some "sample_mflix", coll := some "movies" }

def c4SetArgs : ConfigSetArgs := { index := some "myIndex" }

theorem c4_witness :
    ((c4SetArgs.passedKey "db" = false ∧
      (handle_config_set c4OldProfile c4SetArgs).lookupKey "db" = c4OldProfile.lookupKey "db")
     ∧ (c4SetArgs.passedKey "index" = true ∧
      (handle_config_set c4OldProfile c4SetArgs).lookupKey "index" = c4SetArgs.cliValue "index")) :=
  ⟨⟨by decide, (c4_config_set_preserves_unpassed c4OldProfile c4SetArgs "db").1 (by decide)⟩,
   ⟨by decide, (c4_config_set_preserves_unpassed c4OldProfile c4SetArgs "index").2 (by decide)⟩⟩

/-- C5: empty required connection settings abort before any network. -/
theorem c5_required_preflight :
    (∀ (cfg : Config) (a : LexicalCli),
       (strTruthy (resolveStr a.connectionString cfg.connectionString) = false
         ∨ strTruthy (resolveStr a.db cfg.db) = false
         ∨ strTruthy (resolveStr a.coll cfg.coll) = false) →
       handle_lexical_search cfg a = { exitCode := some 1, stderr := [connErrMsg] })
    ∧ (∀ (cfg : Config) (a : VectorCli) (env : Option String) (emb : Json),
       (strTruthy (resolveStr a.connectionString cfg.connectionString) = false
         ∨ strTruthy (resolveStr a.db cfg.db) = false
         ∨ strTruthy (resolveStr a.coll cfg.coll) = false) →
       handle_vector_search cfg a env emb = { exitCode := some 1, stderr := [connErrMsg] })
    ∧ (∀ (a : RawCli) (fileContent : Option String),
       (strTruthy a.connectionString = false ∨ strTruthy a.db = false
         ∨ strTruthy a.coll = false) →
       ∃ m, rawMain a fileContent = { exitCode := some 1, stderr := [m] }) := by
  refine ⟨?_, ?_, ?_⟩
  · intro cfg a h
    rcases h with h | h | h <;> simp [handle_lexical_search, requiredTruthy, h]
  · intro cfg a env emb h
    rcases h with h | h | h <;> simp [handle_vector_search, requiredTruthy, h]
  · intro a fileContent h
    rcases h with h | h | h
    · exact ⟨"Error: Connection string is required.", by simp [rawMain, h]⟩
    · cases hc : strTruthy a.connectionString
      · exact ⟨"Error: Connection string is required.", by simp [rawMain, hc]⟩
      · exact ⟨"Error: Database name is required.", by simp [rawMain, hc, h]⟩
    · cases hc : strTruthy a.connectionString
      · exact ⟨"Error: Connection string is required.", by simp [rawMain, hc]⟩
      · cases hd : strTruthy a.db
        · exact ⟨"Error: Database name is required.", by simp [rawMain, hc, hd]⟩
        · exact ⟨"Error: Collection name is required.", by simp [rawMain, hc, hd, h]⟩

theorem c5_witness :
    handle_lexical_search {} { query := "q" } = { exitCode := some 1, stderr := [connErrMsg] } :=
  c5_required_preflight.1 {} { query := "q" } (Or.inl (by decide))

/-- C10: lexical pipeline is always search, limit, optional project. -/
theorem c10_lexical_limit_position :
    ∀ (cfg : Config) (a : LexicalCli) (p : List Json),
      (handle_lexical_search cfg a).pipeline = some p →
      p = [searchStage (resolveStrD a.index cfg.index "default") a.query
             (resolveLexicalPath a.field cfg.field),
           limitStage (a.limit.getD 10)] ∨
      p = [searchStage (resolveStrD a.index cfg.index "default") a.query
             (resolveLexicalPath a.field cfg.field),
           limitStage (a.limit.getD 10),
           projectStage (resolvedProjectFields (cfg.projectField.getD []) a.projectField)] := by
  intro cfg a p hp
  simp only [handle_lexical_search] at hp
  split at hp
  · simp at hp
  · simp only [Option.some.injEq] at hp
    subst hp
    by_cases hpf : (resolvedProjectFields (cfg.projectField.getD []) a.projectField).isEmpty
    · exact Or.inl (by simp [hpf])
    · exact Or.inr (by simp [hpf])

def c10LexArgs : LexicalCli :=
  { query := "q", connectionString := some "m", db := some "d", coll := some "c" }

theorem c10_witness :
    ([searchStage "default" "q" (Json.obj [("wildcard", Json.str "*")]), limitStage 10] =
       [searchStage "default" "q" (Json.obj [("wildcard", Json.str "*")]), limitStage 10]
     ∨ [searchStage "default" "q" (Json.obj [("wildcard", Json.str "*")]), limitStage 10] =
       [searchStage "default" "q" (Json.obj [("wildcard", Json.str "*")]), limitStage 10,
        projectStage []]) :=
  c10_lexical_limit_position {} c10LexArgs
    [searchStage "default" "q" (Json.obj [("wildcard", Json.str "*")]), limitStage 10] rfl

/-- A stage is search-initiating when its top-level key is `$search` or
`$vectorSearch`. -/
def isSearchInit (j : Json) : Bool :=
  (j.objLookup "$search").isSome || (j.objLookup "$vectorSearch").isSome

theorem isSearchInit_searchStage (i q : String) (pth : Json) :
    isSearchInit (searchStage i q pth) = true := rfl

theorem isSearchInit_limitStage (n : Int) : isSearchInit (limitStage n) = false := rfl

theorem isSearchInit_projectStage (fields : List String) :
    isSearchInit (projectStage fields) = false := rfl

theorem isSearchInit_vectorSearchStage (i : String) (qe : String × Json) (pth : String)
    (nc l : Int) : isSearchInit (vectorSearchStage i qe pth nc l) = true := rfl

theorem projLookup_searchStage (i q : String) (pth : Json) :
    (searchStage i q pth).objLookup "$project" = none := rfl

theorem projLookup_limitStage (n : Int) : (limitStage n).objLookup "$project" = none := rfl

theorem projLookup_projectStage (fields : List String) :
    ((projectStage fields).objLookup "$project").isSome = true := rfl

theorem projLookup_vectorSearchStage (i : String) (qe : String × Json) (pth : String)
    (nc l : Int) : (vectorSearchStage i qe pth nc l).objLookup "$project" = none := rfl

def c6LexArgs : LexicalCli :=
  { query := "hello", connectionString := some "m", db := some "d", coll := some "c" }

/-- C6: exactly one search-initiating stage, first, optional project last. -/
theorem c6_search_stage_first_project_last :
    (∀ (cfg : Config) (a : LexicalCli) (p : List Json),
       (handle_lexical_search cfg a).pipeline = some p →
       ∃ s rest, p = s :: rest ∧ isSearchInit s = true
         ∧ (∀ t ∈ rest, isSearchInit t = false)
         ∧ (∀ t ∈ p, (t.objLookup "$project").isSome = true → p.getLast? = some t))
    ∧ (∀ (cfg : Config) (a : VectorCli) (env : Option String) (emb : Json) (p : List Json),
       (handle_vector_search cfg a env emb).pipeline = some p →
       ∃ s rest, p = s :: rest ∧ isSearchInit s = true
         ∧ (∀ t ∈ rest, isSearchInit t = false)
         ∧ (∀ t ∈ p, (t.objLookup "$project").isSome = true → p.getLast? = some t))
    ∧ ((handle_lexical_search {} c6LexArgs).pipeline =
        some [searchStage "default" "hello" (.obj [("wildcard", .str "*")]), limitStage 10])
    ∧ (Option.bind (Option.bind ((searchStage "default" "hello"
          (.obj [("wildcard", .str "*")])).objLookup "$search")
          (fun o => o.objLookup "text")) (fun t => t.objLookup "path") =
        some (.obj [("wildcard", .str "*")]))
    ∧ (Option.bind (Option.bind ((searchStage "default" "hello"
          (.obj [("wildcard", .str "*")])).objLookup "$search")
          (fun o => o.objLookup "text")) (fun t => t.objLookup "query") =
        some (.str "hello")) := by
  refine ⟨?_, ?_, rfl, rfl, rfl⟩
  · intro cfg a p hp
    simp only [handle_lexical_search] at hp
    split at hp
    · simp at hp
    · simp only [Option.some.injEq] at hp
      subst hp
      by_cases hpf : (resolvedProjectFields (cfg.projectField.getD []) a.projectField).isEmpty
      · refine ⟨searchStage (resolveStrD a.index cfg.index "default") a.query
            (resolveLexicalPath a.field cfg.field),
          [limitStage (a.limit.getD 10)], by simp [hpf],
          isSearchInit_searchStage _ _ _, ?_, ?_⟩
        · intro t ht
          simp only [List.mem_singleton] at ht
          subst ht
          exact isSearchInit_limitStage _
        · intro t ht hproj
          simp [hpf] at ht
          rcases ht with ht | ht <;> subst ht <;>
            simp_all [projLookup_searchStage, projLookup_limitStage]
      · refine ⟨searchStage (resolveStrD a.index cfg.index "default") a.query
            (resolveLexicalPath a.field cfg.field),
          [limitStage (a.limit.getD 10),
           projectStage (resolvedProjectFields (cfg.projectField.getD []) a.projectField)],
          by simp [hpf], isSearchInit_searchStage _ _ _, ?_, ?_⟩
        · intro t ht
          simp only [List.mem_cons, List.mem_singleton, List.not_mem_nil, or_false] at ht
          rcases ht with ht | ht <;> subst ht
          · exact isSearchInit_limitStage _
          · exact isSearchInit_projectStage _
        · intro t ht hproj
          simp [hpf] at ht
          rcases ht with ht | ht | ht <;> subst ht <;>
            simp_all [projLookup_searchStage, projLookup_limitStage, hpf]
  · intro cfg a env emb p hp
    simp only [handle_vector_search] at hp
    split at hp
    · simp at hp
    · split at hp
      · simp at hp
      · have main : ∀ (qe : String × Json),
            (some ([vectorSearchStage (resolveStrD a.index cfg.index "vector_index") qe
                (optFieldPath (resolveVectorField a.field cfg.field))
                (resolveNumCandidates a.numCandidates (a.limit.getD 10)) (a.limit.getD 10)]
              ++ (if !(resolvedProjectFields (cfg.projectField.getD []) a.projectField).isEmpty
                  then [projectStage (resolvedProjectFields (cfg.projectField.getD [])
                         a.projectField)]
                  else []) : List Json) = some p) →
            ∃ s rest, p = s :: rest ∧ isSearchInit s = true
              ∧ (∀ t ∈ rest, isSearchInit t = false)
              ∧ (∀ t ∈ p, (t.objLookup "$project").isSome = true → p.getLast? = some t) := by
          intro qe hq
          simp only [Option.some.injEq] at hq
          subst hq
          by_cases hpf : (resolvedProjectFields (cfg.projectField.getD []) a.projectField).isEmpty
          · refine ⟨vectorSearchStage (resolveStrD a.index cfg.index "vector_index") qe
                (optFieldPath (resolveVectorField a.field cfg.field))
                (resolveNumCandidates a.numCandidates (a.limit.getD 10)) (a.limit.getD 10),
              [], by simp [hpf], isSearchInit_vectorSearchStage _ _ _ _ _, ?_, ?_⟩
            · intro t ht
              cases ht
            · intro t ht hproj
              simp [hpf] at ht
              subst ht
              simp_all [projLookup_vectorSearchStage]
          · refine ⟨vectorSearchStage (resolveStrD a.index cfg.index "vector_index") qe
                (optFieldPath (resolveVectorField a.field cfg.field))
                (resolveNumCandidates a.numCandidates (a.limit.getD 10)) (a.limit.getD 10),
              [projectStage (resolvedProjectFields (cfg.projectField.getD []) a.projectField)],
              by simp [hpf], isSearchInit_vectorSearchStage _ _ _ _ _, ?_, ?_⟩
            · intro t ht
              simp only [List.mem_singleton] at ht
              subst ht
              exact isSearchInit_projectStage _
            · intro t ht hproj
              simp [hpf] at ht
              rcases ht with ht | ht <;> subst ht <;>
                simp_all [projLookup_vectorSearchStage, hpf]
        split at hp
        · split at hp
          · simp at hp
          · exact main _ hp
        · exact main _ hp

theorem c6_witness :
    ∃ s rest,
      [searchStage "default" "hello" (Json.obj [("wildcard", Json.str "*")]), limitStage 10] =
        s :: rest
      ∧ isSearchInit s = true
      ∧ (∀ t ∈ rest, isSearchInit t = false)
      ∧ (∀ t ∈ [searchStage "default" "hello" (Json.obj [("wildcard", Json.str "*")]),
            limitStage 10],
          (t.objLookup "$project").isSome = true →
          [searchStage "default" "hello" (Json.obj [("wildcard", Json.str "*")]),
            limitStage 10].getLast? = some t) :=
  c6_search_stage_first_project_last.1 {} c6LexArgs
    [searchStage "default" "hello" (Json.obj [("wildcard", Json.str "*")]), limitStage 10] rfl

def c2VecArgs : VectorCli :=
  { query := "[0.1,0.2]", field := some "embedding", limit := some 5,
    connectionString := some "mongodb://x", db := some "d", coll := some "c" }

/-- C2 counterexample: with `--numCandidates` absent and limit 5, the
emitted stage carries numCandidates 100 (the argparse default), not
10 x limit = 50, because line 227 gives the flag the default `100`
which is truthy at line 144. -/
theorem c2_counterexample :
    (handle_vector_search {} c2VecArgs none Json.null).pipeline =
      some [vectorSearchStage "vector_index" ("query", .str "[0.1,0.2]") "embedding" 100 5]
    ∧ (100 : Int) ≠ 10 * 5 :=
  ⟨rfl, by decide⟩

/-- C2 amended: without embedding the stage key is `query` holding the
raw text; numCandidates is the argparse value (default 100) when
non-zero, and 10 x limit only when that value is zero. -/
theorem c2_amended_numCandidates :
    ∀ (cfg : Config) (a : VectorCli) (env : Option String) (emb : Json) (s : Json)
      (rest : List Json),
      a.embedWithVoyage = false →
      (handle_vector_search cfg a env emb).pipeline = some (s :: rest) →
      (Option.bind (s.objLookup "$vectorSearch") (fun o => o.objLookup "query") =
          some (.str a.query))
      ∧ (Option.bind (s.objLookup "$vectorSearch") (fun o => o.objLookup "queryVector") = none)
      ∧ (Option.bind (s.objLookup "$vectorSearch") (fun o => o.objLookup "numCandidates") =
          some (.num (resolveNumCandidates a.numCandidates (a.limit.getD 10))))
      ∧ (a.numCandidates = none →
         Option.bind (s.objLookup "$vectorSearch") (fun o => o.objLookup "numCandidates") =
           some (.num 100)) := by
  intro cfg a env emb s rest hemb hp
  simp only [handle_vector_search, hemb] at hp
  split at hp
  · simp at hp
  · split at hp
    · simp at hp
    · simp only [Bool.false_eq_true, if_false, Option.some.injEq] at hp
      have hs : s = vectorSearchStage (resolveStrD a.index cfg.index "vector_index")
          ("query", .str a.query) (optFieldPath (resolveVectorField a.field cfg.field))
          (resolveNumCandidates a.numCandidates (a.limit.getD 10)) (a.limit.getD 10) := by
        by_cases hpf : (resolvedProjectFields (cfg.projectField.getD []) a.projectField).isEmpty <;>
          simp [hpf] at hp <;> exact hp.1.symm
      subst hs
      refine ⟨rfl, rfl, rfl, ?_⟩
      intro hnc
      simp [resolveNumCandidates, hnc, vectorSearchStage, Json.objLookup]

theorem c2_amended_witness :
    (Option.bind ((vectorSearchStage "vector_index" ("query", .str "[0.1,0.2]") "embedding"
        100 5).objLookup "$vectorSearch") (fun o => o.objLookup "query") =
        some (.str "[0.1,0.2]"))
    ∧ (Option.bind ((vectorSearchStage "vector_index" ("query", .str "[0.1,0.2]") "embedding"
        100 5).objLookup "$vectorSearch") (fun o => o.objLookup "queryVector") = none)
    ∧ (Option.bind ((vectorSearchStage "vector_index" ("query", .str "[0.1,0.2]") "embedding"
        100 5).objLookup "$vectorSearch") (fun o => o.objLookup "numCandidates") =
        some (.num (resolveNumCandidates none 5)))
    ∧ (none = (none : Option Int) →
       Option.bind ((vectorSearchStage "vector_index" ("query", .str "[0.1,0.2]") "embedding"
        100 5).objLookup "$vectorSearch") (fun o => o.objLookup "numCandidates") =
        some (.num 100)) :=
  c2_amended_numCandidates {} c2VecArgs none Json.null _ [] rfl rfl

def c7RawArgs : RawCli :=
  { query := "v", connectionString := some "m", db := some "d", coll := some "c",
    searchAggFile := some "pipe.json" }

/-- C7 counterexample: a template whose array elements are not stage
objects is accepted, not rejected — the shape check at line 45 only
tests for a list, so `["%%SEARCH_QUERY%%"]` yields the pipeline
`["v"]` and the aggregation proceeds. -/
theorem c7_counterexample :
    templateBuild "[\"%%SEARCH_QUERY%%\"]" "v" = .ok [.str "v"]
    ∧ (Json.str "v").isObj = false
    ∧ (rawMain c7RawArgs (some "[\"%%SEARCH_QUERY%%\"]")).exitCode = none
    ∧ (rawMain c7RawArgs (some "[\"%%SEARCH_QUERY%%\"]")).events = [Event.mongoAggregate] :=
  ⟨rfl, rfl, rfl, rfl⟩

/-- C7 amended: missing placeholder is rejected before parsing and
before any network activity; a successful build is exactly the parse of
the substituted text; a parsed non-array is a fatal input error; and the
documented example substitutes to the expected one-stage pipeline. -/
theorem c7_amended_template :
    (∀ (content query : String),
       containsSub content searchQueryPlaceholder = false →
       templateBuild content query = .error .missingPlaceholder)
    ∧ (∀ (a : RawCli) (content : String),
       strTruthy a.searchAggFile = true →
       containsSub content searchQueryPlaceholder = false →
       (rawMain a (some content)).events = [] ∧ (rawMain a (some content)).pipeline = none)
    ∧ (∀ (content query : String) (xs : List Json),
       templateBuild content query = .ok xs →
       Json.parse (replaceSub content searchQueryPlaceholder query) = some (.arr xs))
    ∧ (∀ (content query : String) (j : Json),
       containsSub content searchQueryPlaceholder = true →
       Json.parse (replaceSub content searchQueryPlaceholder query) = some j →
       (∀ xs, j ≠ .arr xs) →
       templateBuild content query = .error .notAnArray)
    ∧ (templateBuild "[\x7b\"$match\": \x7b\"x\": \"%%SEARCH_QUERY%%\"\x7d\x7d]" "v" =
       .ok [.obj [("$match", .obj [("x", .str "v")])]]) := by
  refine ⟨?_, ?_, ?_, ?_, rfl⟩
  · intro content query h
    simp [templateBuild, h]
  · intro a content hf h
    cases hc : strTruthy a.connectionString
    · simp [rawMain, hc]
    · cases hd : strTruthy a.db
      · simp [rawMain, hc, hd]
      · cases hl : strTruthy a.coll
        · simp [rawMain, hc, hd, hl]
        · simp [rawMain, hc, hd, hl, hf, templateBuild, h]
  · intro content query xs h
    simp only [templateBuild] at h
    split at h
    · cases h
    · cases hj : Json.parse (replaceSub content searchQueryPlaceholder query) with
      | none => rw [hj] at h; cases h
      | some j =>
        rw [hj] at h
        cases j <;> simp_all
  · intro content query j hc hp hnotarr
    simp only [templateBuild, hc, hp, Bool.not_true]
    cases j <;> first | rfl | exact absurd rfl (hnotarr _)

theorem c7_amended_witness :
    templateBuild "[1]" "v" = .error .missingPlaceholder :=
  c7_amended_template.1 "[1]" "v" rfl

def c8VecArgs : VectorCli :=
  { query := "q", connectionString := some "m", db := some "d", coll := some "c" }

def c8Profile : Config := { field := some (.list ["f1", "f2"]) }

/-- C8 counterexample: the vector subcommand's `--field` flag is
declared without `action=append` (line 224), so it is not a repeatable
flag; and the multiple-field warning is a fixed text that does not list
the ignored entries. -/
theorem c8_counterexample :
    flagAction vectorFlags "--field" = some .store
    ∧ ArgAction.store ≠ ArgAction.append
    ∧ (handle_vector_search c8Profile c8VecArgs none .null).stderr = [multiFieldWarnMsg]
    ∧ containsSub multiFieldWarnMsg "f2" = false :=
  ⟨rfl, by decide, rfl, rfl⟩

/-- C8 amended: `--field` is repeatable on `lexical` and `config set`
but single-valued on `vector`; a profile-sourced field list with more
than one entry uses only its first entry as the path and emits one
fixed non-fatal warning, with the invocation proceeding. -/
theorem c8_amended_vector_field :
    flagAction lexicalFlags "--field" = some .append
    ∧ flagAction configSetFlags "--field" = some .append
    ∧ flagAction vectorFlags "--field" = some .store
    ∧ (∀ (cfg : Config) (a : VectorCli) (env : Option String) (emb : Json) (xs : List String),
       strTruthy a.field = false → cfg.field = some (.list xs) → 1 < xs.length →
       a.embedWithVoyage = false →
       requiredTruthy (resolveStr a.connectionString cfg.connectionString)
         (resolveStr a.db cfg.db) (resolveStr a.coll cfg.coll) = true →
       (handle_vector_search cfg a env emb).stderr = [multiFieldWarnMsg]
       ∧ (handle_vector_search cfg a env emb).exitCode = none
       ∧ (∃ s rest, (handle_vector_search cfg a env emb).pipeline = some (s :: rest)
           ∧ Option.bind (s.objLookup "$vectorSearch") (fun o => o.objLookup "path") =
               some (.str (xs.headD "")))) := by
  refine ⟨rfl, rfl, rfl, ?_⟩
  intro cfg a env emb xs hcli hprof hlen hemb hreq
  have hxs : xs ≠ [] := by
    intro hnil
    subst hnil
    simp at hlen
  have hft : fieldTruthy (resolveVectorField a.field cfg.field) = true := by
    simp [resolveVectorField, hcli, hprof, fieldTruthy, hxs]
  have hwarn : optFieldWarnings (resolveVectorField a.field cfg.field) = [multiFieldWarnMsg] := by
    simp [resolveVectorField, hcli, hprof, optFieldWarnings, hlen]
  have hpath : optFieldPath (resolveVectorField a.field cfg.field) = xs.headD "" := by
    simp [resolveVectorField, hcli, hprof, optFieldPath]
  refine ⟨?_, ?_, ?_⟩
  · simp [handle_vector_search, hreq, hft, hemb, hwarn]
  · simp [handle_vector_search, hreq, hft, hemb]
  · refine ⟨vectorSearchStage (resolveStrD a.index cfg.index "vector_index")
        ("query", .str a.query) (optFieldPath (resolveVectorField a.field cfg.field))
        (resolveNumCandidates a.numCandidates (a.limit.getD 10)) (a.limit.getD 10),
      (if !(resolvedProjectFields (cfg.projectField.getD []) a.projectField).isEmpty
       then [projectStage (resolvedProjectFields (cfg.projectField.getD []) a.projectField)]
       else []), ?_, ?_⟩
    · simp [handle_vector_search, hreq, hft, hemb]
    · simp [vectorSearchStage, Json.objLookup, hpath]

theorem c8_amended_witness :
    (handle_vector_search c8Profile c8VecArgs none .null).stderr = [multiFieldWarnMsg]
    ∧ (handle_vector_search c8Profile c8VecArgs none .null).exitCode = none
    ∧ (∃ s rest, (handle_vector_search c8Profile c8VecArgs none .null).pipeline = some (s :: rest)
        ∧ Option.bind (s.objLookup "$vectorSearch") (fun o => o.objLookup "path") =
            some (.str (["f1", "f2"].headD ""))) :=
  c8_amended_vector_field.2.2.2 c8Profile c8VecArgs none .null ["f1", "f2"]
    rfl rfl (by decide) rfl rfl

/-- C9: the embedding key is resolved CLI flag, then profile, then
environment variable, as witnessed by the key the embedding client is
constructed with; with no resolvable key the invocation exits 1 with an
empty network trace. -/
theorem c9_voyage_key_resolution :
    (∀ (cfg : Config) (a : VectorCli) (env : Option String) (emb : Json),
       a.embedWithVoyage = true →
       strTruthy (resolveVoyageKey a.voyageAPIKey cfg.voyageAPIKey env) = false →
       (handle_vector_search cfg a env emb).exitCode = some 1
       ∧ (handle_vector_search cfg a env emb).events = []
       ∧ (handle_vector_search cfg a env emb).pipeline = none)
    ∧ (∀ (cli prof env : Option String) (s : String),
       cli = some s → s ≠ "" → resolveVoyageKey cli prof env = some s)
    ∧ (∀ (cli prof env : Option String) (v : String),
       strTruthy cli = false → prof = some v → resolveVoyageKey cli prof env = some v)
    ∧ (∀ (cli env : Option String),
       strTruthy cli = false → resolveVoyageKey cli none env = env)
    ∧ (∀ (cfg : Config) (a : VectorCli) (env : Option String) (emb : Json) (k m : String)
         (rest : List Event),
       (handle_vector_search cfg a env emb).events = Event.voyageEmbed k m :: rest →
       some k = resolveVoyageKey a.voyageAPIKey cfg.voyageAPIKey env) := by
  refine ⟨?_, ?_, ?_, ?_, ?_⟩
  · intro cfg a env emb hemb hkey
    cases hreq : requiredTruthy (resolveStr a.connectionString cfg.connectionString)
        (resolveStr a.db cfg.db) (resolveStr a.coll cfg.coll)
    · simp [handle_vector_search, hreq]
    · cases hft : fieldTruthy (resolveVectorField a.field cfg.field)
      · simp [handle_vector_search, hreq, hft]
      · simp [handle_vector_search, hreq, hft, hemb, hkey]
  · intro cli prof env s hcli hs
    subst hcli
    simp [resolveVoyageKey, strTruthy, String.isEmpty_iff, hs]
  · intro cli prof env v hcli hprof
    subst hprof
    simp [resolveVoyageKey, hcli]
  · intro cli env hcli
    simp [resolveVoyageKey, hcli]
  · intro cfg a env emb k m rest hev
    cases hreq : requiredTruthy (resolveStr a.connectionString cfg.connectionString)
        (resolveStr a.db cfg.db) (resolveStr a.coll cfg.coll)
    · simp [handle_vector_search, hreq] at hev
    · cases hft : fieldTruthy (resolveVectorField a.field cfg.field)
      · simp [handle_vector_search, hreq, hft] at hev
      · cases hemb : a.embedWithVoyage
        · simp [handle_vector_search, hreq, hft, hemb] at hev
        · cases hkey : strTruthy (resolveVoyageKey a.voyageAPIKey cfg.voyageAPIKey env)
          · simp [handle_vector_search, hreq, hft, hemb, hkey] at hev
          · simp [handle_vector_search, hreq, hft, hemb, hkey] at hev
            rcases hkey2 : resolveVoyageKey a.voyageAPIKey cfg.voyageAPIKey env with _ | kv
            · rw [hkey2] at hkey
              simp [strTruthy] at hkey
            · rw [hkey2] at hev
              simp at hev
              rw [hev.1.1]

def c9VecArgs : VectorCli :=
  { query := "q", field := some "emb", embedWithVoyage := true,
    connectionString := some "m", db := some "d", coll := some "c" }

theorem c9_witness :
    (handle_vector_search {} c9VecArgs none Json.null).exitCode = some 1
    ∧ (handle_vector_search {} c9VecArgs none Json.null).events = []
    ∧ (handle_vector_search {} c9VecArgs none Json.null).pipeline = none :=
  c9_voyage_key_resolution.1 {} c9VecArgs none Json.null rfl rfl

def c1Profile : Config := { projectField := some ["a"] }

def c1LexArgs : LexicalCli :=
  { query := "q", projectField := ["b"],
    connectionString := some "m", db := some "d", coll := some "c" }

/-- C1 counterexample: with profile projectField `["a"]` and the CLI
flag present with `["b"]`, the resolved collection is the union
containing `"a"`, not the CLI value `["b"]` alone — resolution for
`projectField` is not CLI-over-profile. -/
theorem c1_counterexample :
    (handle_lexical_search c1Profile c1LexArgs).pipeline =
      some [searchStage "default" "q" (.obj [("wildcard", .str "*")]), limitStage 10,
            projectStage ["a", "b"]]
    ∧ "a" ∈ resolvedProjectFields ["a"] ["b"]
    ∧ "a" ∉ (["b"] : List String) :=
  ⟨rfl, by decide, by decide⟩

/-- C1 amended: layered CLI-over-profile-over-default resolution holds
for connectionString, db, coll, index, field and voyageAPIKey;
projectField resolves to the set union of both layers; limit,
numCandidates and voyageModel are resolved from the CLI layer alone with
argparse defaults 10, 100 and voyage-3.5 (the profile is not consulted
unless, for voyageModel, the CLI explicitly passes an empty string). -/
theorem c1_amended_resolution :
    (∀ (cfg : Config) (a : VectorCli) (env : Option String) (emb : Json)
       (t : String × String × String),
       (handle_vector_search cfg a env emb).conn = some t →
       t = ((resolveStr a.connectionString cfg.connectionString).getD "",
            (resolveStr a.db cfg.db).getD "",
            (resolveStr a.coll cfg.coll).getD ""))
    ∧ (∀ (cfg : Config) (a : LexicalCli) (p : List Json),
       (handle_lexical_search cfg a).pipeline = some p →
       ∃ rest, p = searchStage (resolveStrD a.index cfg.index "default") a.query
           (resolveLexicalPath a.field cfg.field) :: rest)
    ∧ (∀ (cfg : Config) (a : VectorCli) (env : Option String) (emb : Json) (p : List Json),
       (handle_vector_search cfg a env emb).pipeline = some p →
       ∃ qe rest, p = vectorSearchStage (resolveStrD a.index cfg.index "vector_index") qe
           (optFieldPath (resolveVectorField a.field cfg.field))
           (resolveNumCandidates a.numCandidates (a.limit.getD 10))
           (a.limit.getD 10) :: rest)
    ∧ (∀ (cli prof : Option String) (s : String),
       cli = some s → s ≠ "" → resolveStr cli prof = some s)
    ∧ (∀ (cli prof : Option String),
       strTruthy cli = false → resolveStr cli prof = prof)
    ∧ (∀ (cli prof : Option String) (d s : String),
       cli = some s → s ≠ "" → resolveStrD cli prof d = s)
    ∧ (∀ (cli : Option String) (d v : String),
       strTruthy cli = false → resolveStrD cli (some v) d = v)
    ∧ (∀ (cli : Option String) (d : String),
       strTruthy cli = false → resolveStrD cli none d = d)
    ∧ (∀ (prof : Option FieldVal) (s : String),
       s ≠ "" → resolveVectorField (some s) prof = some (.str s))
    ∧ (∀ (cli : Option String) (prof : Option FieldVal),
       strTruthy cli = false → resolveVectorField cli prof = prof)
    ∧ (resolveLexicalPath [] none = .obj [("wildcard", .str "*")])
    ∧ (∀ (cli : List String) (prof : Option FieldVal),
       cli ≠ [] → resolveLexicalPath cli prof = .arr (cli.map Json.str))
    ∧ (∀ (fv : FieldVal), resolveLexicalPath [] (some fv) = fieldValToJson fv)
    ∧ (∀ (configFields cliFields : List String) (f : String),
       f ∈ resolvedProjectFields configFields cliFields ↔
         f ∈ configFields ∨ f ∈ cliFields)
    ∧ (∀ (cli prof env : Option String) (s : String),
       cli = some s → s ≠ "" → resolveVoyageKey cli prof env = some s)
    ∧ (∀ (cli env : Option String) (v : String),
       strTruthy cli = false → resolveVoyageKey cli (some v) env = some v)
    ∧ (∀ (cli env : Option String),
       strTruthy cli = false → resolveVoyageKey cli none env = env)
    ∧ (∀ (prof : Option String) (s : String),
       s ≠ "" → resolveVoyageModel (some s) prof = s)
    ∧ (∀ (prof : Option String), resolveVoyageModel none prof = "voyage-3.5")
    ∧ (∀ (cfg : Config) (a : VectorCli) (env : Option String) (emb : Json) (k m : String)
         (rest : List Event),
       a.voyageModel = none →
       (handle_vector_search cfg a env emb).events = Event.voyageEmbed k m :: rest →
       m = "voyage-3.5") := by
  refine ⟨?_, ?_, ?_, ?_, ?_, ?_, ?_, ?_, ?_, ?_, rfl, ?_, ?_, ?_, ?_, ?_, ?_, ?_, ?_, ?_⟩
  · intro cfg a env emb t ht
    cases hreq : requiredTruthy (resolveStr a.connectionString cfg.connectionString)
        (resolveStr a.db cfg.db) (resolveStr a.coll cfg.coll)
    · simp [handle_vector_search, hreq] at ht
    · cases hft : fieldTruthy (resolveVectorField a.field cfg.field)
      · simp [handle_vector_search, hreq, hft] at ht
      · cases hemb : a.embedWithVoyage
        · simp [handle_vector_search, hreq, hft, hemb] at ht
          exact ht.symm
        · cases hkey : strTruthy (resolveVoyageKey a.voyageAPIKey cfg.voyageAPIKey env)
          · simp [handle_vector_search, hreq, hft, hemb, hkey] at ht
          · simp [handle_vector_search, hreq, hft, hemb, hkey] at ht
            exact ht.symm
  · intro cfg a p hp
    simp only [handle_lexical_search] at hp
    split at hp
    · simp at hp
    · simp only [Option.some.injEq] at hp
      exact ⟨_, hp.symm⟩
  · intro cfg a env emb p hp
    cases hreq : requiredTruthy (resolveStr a.connectionString cfg.connectionString)
        (resolveStr a.db cfg.db) (resolveStr a.coll cfg.coll)
    · simp [handle_vector_search, hreq] at hp
    · cases hft : fieldTruthy (resolveVectorField a.field cfg.field)
      · simp [handle_vector_search, hreq, hft] at hp
      · cases hemb : a.embedWithVoyage
        · simp [handle_vector_search, hreq, hft, hemb] at hp
          exact ⟨("query", .str a.query), _, hp.symm⟩
        · cases hkey : strTruthy (resolveVoyageKey a.voyageAPIKey cfg.voyageAPIKey env)
          · simp [handle_vector_search, hreq, hft, hemb, hkey] at hp
          · simp [handle_vector_search, hreq, hft, hemb, hkey] at hp
            exact ⟨("queryVector", emb), _, hp.symm⟩
  · intro cli prof s hcli hs
    subst hcli
    simp [resolveStr, strTruthy, String.isEmpty_iff, hs]
  · intro cli prof hcli
    simp [resolveStr, hcli]
  · intro cli prof d s hcli hs
    subst hcli
    simp [resolveStrD, strTruthy, String.isEmpty_iff, hs]
  · intro cli d v hcli
    simp [resolveStrD, hcli]
  · intro cli d hcli
    simp [resolveStrD, hcli]
  · intro prof s hs
    simp [resolveVectorField, strTruthy, String.isEmpty_iff, hs]
  · intro cli prof hcli
    simp [resolveVectorField, hcli]
  · intro cli prof hcli
    simp [resolveLexicalPath, hcli]
  · intro fv
    simp [resolveLexicalPath]
  · intro configFields cliFields f
    simp [resolvedProjectFields, List.mem_dedup]
  · intro cli prof env s hcli hs
    subst hcli
    simp [resolveVoyageKey, strTruthy, String.isEmpty_iff, hs]
  · intro cli env v hcli
    simp [resolveVoyageKey, hcli]
  · intro cli env hcli
    simp [resolveVoyageKey, hcli]
  · intro prof s hs
    simp [resolveVoyageModel, String.isEmpty_iff, hs]
  · intro prof
    rfl
  · intro cfg a env emb k m rest hm hev
    cases hreq : requiredTruthy (resolveStr a.connectionString cfg.connectionString)
        (resolveStr a.db cfg.db) (resolveStr a.coll cfg.coll)
    · simp [handle_vector_search, hreq] at hev
    · cases hft : fieldTruthy (resolveVectorField a.field cfg.field)
      · simp [handle_vector_search, hreq, hft] at hev
      · cases hemb : a.embedWithVoyage
        · simp [handle_vector_search, hreq, hft, hemb] at hev
        · cases hkey : strTruthy (resolveVoyageKey a.voyageAPIKey cfg.voyageAPIKey env)
          · simp [handle_vector_search, hreq, hft, hemb, hkey] at hev
          · simp [handle_vector_search, hreq, hft, hemb, hkey] at hev
            have := hev.1.2
            rw [← this]
            simp [resolveVoyageModel, hm,
              show ("voyage-3.5" : String).isEmpty = false from rfl]

theorem c1_amended_witness :
    resolveStrD (some "myIdx") (some "profIdx") "default" = "myIdx"
    ∧ resolveStrD none (some "profIdx") "default" = "profIdx"
    ∧ resolveStrD none none "default" = "default" :=
  ⟨c1_amended_resolution.2.2.2.2.2.1 (some "myIdx") (some "profIdx") "default" "myIdx" rfl
     (by decide),
   c1_amended_resolution.2.2.2.2.2.2.1 none "default" "profIdx" rfl,
   c1_amended_resolution.2.2.2.2.2.2.2.1 none "default" rfl⟩
